import Mathlib

/-!
Verification of the PostHog trends query engine specification.

A shallow embedding of the trends computation engine (calendar bucketing,
rolling active-user windows, result caching and merging, breakdown labels,
numeric aggregation, compare mode, relative date parsing), settled against
the repository's pinned unit tests.
-/

namespace PostHogTrends

/-! ## Calendar core

Dates are civil (proleptic Gregorian) dates; `toDayNumber` converts a
year/month/day triple to the number of days since 1970-01-01 and
`fromDayNumber` inverts it (Howard Hinnant's civil-date algorithm, using
Lean's Euclidean `/` and `%` on `Int`, which agree with floor
division/modulo for the positive divisors used here).  Timestamps (`Ts`)
are minutes since 1970-01-01 00:00 in the team's local calendar. -/

def isLeap (y : Int) : Bool :=
  (y % 4 == 0 && y % 100 != 0) || (y % 400 == 0)

def daysInMonth (y m : Int) : Int :=
  if m = 2 then (if isLeap y then 29 else 28)
  else if m = 4 ∨ m = 6 ∨ m = 9 ∨ m = 11 then 30
  else 31

def toDayNumber (y m d : Int) : Int :=
  let y2 := if m ≤ 2 then y - 1 else y
  let era := y2 / 400
  let yoe := y2 - era * 400
  let mp := (m + 9) % 12
  let doy := (153 * mp + 2) / 5 + d - 1
  let doe := yoe * 365 + yoe / 4 - yoe / 100 + doy
  era * 146097 + doe - 719468

structure CivilDate where
  year : Int
  month : Int
  day : Int
deriving DecidableEq, Repr

def fromDayNumber (z : Int) : CivilDate :=
  let z2 := z + 719468
  let era := z2 / 146097
  let doe := z2 - era * 146097
  let yoe := (doe - doe / 1460 + doe / 36524 - doe / 146096) / 365
  let y := yoe + era * 400
  let doy := doe - (365 * yoe + yoe / 4 - yoe / 100)
  let mp := (5 * doy + 2) / 153
  let d := doy - (153 * mp + 2) / 5 + 1
  let m := mp + (if mp < 10 then 3 else -9)
  ⟨if m ≤ 2 then y + 1 else y, m, d⟩

/-- Day of week with Sunday = 0 (day number 0, 1970-01-01, was a Thursday). -/
def weekday (z : Int) : Int :=
  (z + 4) % 7

/-- The Sunday on or before day number `z` (the week-start anchor). -/
def sundayOnOrBefore (z : Int) : Int :=
  z - weekday z

def monthName (m : Int) : String :=
  if m = 1 then "Jan" else if m = 2 then "Feb" else if m = 3 then "Mar"
  else if m = 4 then "Apr" else if m = 5 then "May" else if m = 6 then "Jun"
  else if m = 7 then "Jul" else if m = 8 then "Aug" else if m = 9 then "Sep"
  else if m = 10 then "Oct" else if m = 11 then "Nov" else "Dec"

/-- Bucket label for day-level buckets, the "D-Mon-YYYY" convention of the
trends result payloads. -/
def dayLabel (z : Int) : String :=
  let c := fromDayNumber z
  toString c.day ++ "-" ++ monthName c.month ++ "-" ++ toString c.year

/-- Timestamps: minutes since 1970-01-01 00:00 in the team's calendar. -/
abbrev Ts := Int

def minutesPerDay : Int := 1440

def mkTs (y m d hh mm : Int) : Ts :=
  toDayNumber y m d * minutesPerDay + hh * 60 + mm

def mkDay (y m d : Int) : Ts := mkTs y m d 0 0

/-- Calendar month addition with day-of-month clamping: the result is the
date exactly `n` months away with the same day-of-month, clamped to the
last day of the target month when that day does not exist (the semantics
of `dateutil.relativedelta`). -/
def addMonthsClamp (y m d n : Int) : CivilDate :=
  let t := y * 12 + (m - 1) + n
  let y2 := t / 12
  let m2 := t % 12 + 1
  ⟨y2, m2, min d (daysInMonth y2 m2)⟩

/-! ## Intervals and bucket axes -/

inductive Interval
  | hour
  | day
  | week
  | month
deriving DecidableEq, Repr

/-- Round a timestamp down to the start of its bucket: hour/day round to
the unit, week rounds to the Sunday on/before, month to the first of the
month. -/
def floorInterval (t : Ts) : Interval → Ts
  | .hour => t - t % 60
  | .day => t - t % minutesPerDay
  | .week => sundayOnOrBefore (t / minutesPerDay) * minutesPerDay
  | .month =>
      let c := fromDayNumber (t / minutesPerDay)
      toDayNumber c.year c.month 1 * minutesPerDay

/-- Advance a timestamp by one interval unit (calendar-aware for months). -/
def addInterval (t : Ts) : Interval → Ts
  | .hour => t + 60
  | .day => t + minutesPerDay
  | .week => t + 7 * minutesPerDay
  | .month =>
      let c := fromDayNumber (t / minutesPerDay)
      let c2 := addMonthsClamp c.year c.month c.day 1
      toDayNumber c2.year c2.month c2.day * minutesPerDay + t % minutesPerDay

/-- A lower bound (in minutes) on one interval step, used to size the fuel
of the axis generator. -/
def stepFloor : Interval → Int
  | .hour => 60
  | .day => minutesPerDay
  | .week => 7 * minutesPerDay
  | .month => 28 * minutesPerDay

def bucketsFrom : Nat → Ts → Ts → Interval → List Ts
  | 0, _, _, _ => []
  | fuel + 1, t, dateTo, i =>
      if t ≤ dateTo then t :: bucketsFrom fuel (addInterval t i) dateTo i else []

/-- Modelled from the spec: the CalendarBucketer contract
`buckets(date_from, date_to, interval, timezone)` (its implementation is
not under src/).  The axis starts at `date_from` rounded down to the
interval (Sunday-anchored for weeks, first-of-month for months) and steps
one interval unit at a time while the bucket start is at most `date_to`,
so a partial final bucket is kept.  Timezone is abstracted away: all
timestamps are already in the team's local calendar. -/
def buckets (dateFrom dateTo : Ts) (i : Interval) : List Ts :=
  let start := floorInterval dateFrom i
  bucketsFrom ((dateTo - start).toNat / (stepFloor i).toNat + 1) start dateTo i

def bucketLabels (axis : List Ts) : List String :=
  axis.map (fun t => dayLabel (t / minutesPerDay))

/-! ## Events and rolling active-user aggregation -/

structure SEvent where
  actor : Nat
  name : String
  ts : Ts
deriving DecidableEq, Repr

def distinctActors (events : List SEvent) : Nat :=
  (events.map (·.actor)).dedup.length

/-- Modelled from the spec: the rolling active-actor aggregation of
`AggregationStrategy` (`weekly_active` has `windowDays = 7`,
`monthly_active` has `windowDays = 30`; the implementation is not under
src/).  Per the pinned tests (`test_weekly_active_users_daily`, `_weekly`,
`_monthly`, `_hourly`), the bucket at start time `b` counts distinct
actors with a qualifying event in the real-time window
`(b - (windowDays - 1) days, b + 1 day]`, independent of the query
interval: a span of `windowDays` whole days, ending one full day after
the bucket's start. -/
def rollingActiveValue (windowDays : Int) (events : List SEvent) (name : String) (b : Ts) : Nat :=
  distinctActors (events.filter (fun e =>
    e.name == name
      && decide (b - (windowDays - 1) * minutesPerDay < e.ts)
      && decide (e.ts ≤ b + minutesPerDay)))

def rollingActiveSeries (windowDays : Int) (events : List SEvent) (name : String)
    (axis : List Ts) : List Nat :=
  axis.map (rollingActiveValue windowDays events name)

/-- The window rule exactly as the specification sentence words it: for
bucket `b`, actors with an event whose bucket (at the chosen interval's
granularity, one unit being `unit` minutes) lies in the trailing window
`[b - window + 1, b]` of `window = 7` interval units. -/
def intervalUnitActiveValue (unit : Int) (events : List SEvent) (name : String) (b : Ts) : Nat :=
  distinctActors (events.filter (fun e =>
    e.name == name
      && decide (b - 6 * unit ≤ e.ts - e.ts % unit)
      && decide (e.ts - e.ts % unit ≤ b)))

def intervalUnitActiveSeries (unit : Int) (events : List SEvent) (name : String)
    (axis : List Ts) : List Nat :=
  axis.map (intervalUnitActiveValue unit events name)

/-- The event fixture of `_create_active_users_events` in
`src/posthog/queries/test/test_trends.py` (actors: 0 = p0, 1 = p1,
2 = p2; all events are `$pageview` at 12:00 UTC). -/
def activeUsersFixture : List SEvent :=
  [ ⟨0, "$pageview", mkTs 2020 1 3 12 0⟩,
    ⟨1, "$pageview", mkTs 2020 1 9 12 0⟩,
    ⟨2, "$pageview", mkTs 2020 1 9 12 0⟩,
    ⟨1, "$pageview", mkTs 2020 1 10 12 0⟩,
    ⟨1, "$pageview", mkTs 2020 1 11 12 0⟩,
    ⟨2, "$pageview", mkTs 2020 1 11 12 0⟩,
    ⟨0, "$pageview", mkTs 2020 1 12 12 0⟩ ]

/-! ## Result cache: `get_cached_result` and `merge_results` -/

structure SeriesPayload where
  days : List Ts
  data : List ℚ
deriving DecidableEq, Repr

/-- Modelled from the spec: `Trends.get_cached_result(filter, team)`
(its implementation is not under src/; `TestTrendUtils` pins its
behavior).  The cached package for the filter's fingerprint is reused
exactly when it exists, its first series has a nonempty bucket axis and
nonempty data, and the last cached bucket start plus one unit of the
requested interval lies strictly after the requested `date_to` — i.e. the
cached axis already reaches into `date_to`'s bucket.  No other shape
check is performed on the cached axis. -/
def get_cached_result (cached : Option (List SeriesPayload)) (i : Interval) (dateTo : Ts) :
    Option (List SeriesPayload) :=
  match cached with
  | none => none
  | some [] => none
  | some (first :: rest) =>
      match first.days.getLast? with
      | none => none
      | some latest =>
          if first.data = [] then none
          else if dateTo < addInterval latest i then some (first :: rest)
          else none

def consecutiveBuckets (i : Interval) : List Ts → Bool
  | [] => true
  | [_] => true
  | a :: b :: rest => (addInterval a i == b) && consecutiveBuckets i (b :: rest)

/-- The cache-validity rule exactly as the specification sentence words
it: the cached bucket axis uses the requested interval's granularity
bucket by bucket (every entry is an interval-aligned bucket start and
consecutive entries are consecutive buckets) and is, by calendar
position, a contiguous prefix of the axis implied by the current
`date_to` (so its last entry is at most `date_to`'s bucket). -/
def cachedAxisContiguous (days : List Ts) (i : Interval) (dateTo : Ts) : Bool :=
  days.all (fun d => floorInterval d i == d)
    && consecutiveBuckets i days
    && (match days.getLast? with
        | none => false
        | some latest => decide (latest ≤ floorInterval dateTo i))

structure FreshSeries where
  label : String
  data : List ℚ
deriving DecidableEq, Repr

/-- Modelled from the spec: `Trends.merge_results(result, cached_result,
entity_order, filter, team)` (its implementation is not under src/;
`TestTrendUtils.test_merge_result*` pins its behavior).  For each freshly
computed series whose label, suffixed with the entity order, has a cached
counterpart, the merged data is the cached data with the value of its
final bucket replaced by the fresh series' final value; a series with no
cached counterpart is kept as-is. -/
def mergeOne (cached : List (String × SeriesPayload)) (order : Nat)
    (payload : FreshSeries) : FreshSeries :=
  match cached.lookup (payload.label ++ "_" ++ toString order), payload.data.getLast? with
  | some c, some v => { payload with data := c.data.dropLast ++ [v] }
  | _, _ => payload

def merge_results (result : List FreshSeries) (cached : List (String × SeriesPayload))
    (order : Nat) : List FreshSeries :=
  result.map (mergeOne cached order)

/-- The merge rule exactly as the claim words it: cached bucket values
strictly before the fresh window are kept verbatim and fresh values
overwrite the cached values on every overlapping bucket (the fresh window
being the final `freshData.length` buckets of the cached axis). -/
def overwriteMerge (cachedData freshData : List ℚ) : List ℚ :=
  cachedData.take (cachedData.length - freshData.length) ++ freshData

/-! ## Breakdown labels -/

inductive BValue
  | int (n : Int)
  | str (s : String)
  | bool (b : Bool)
deriving DecidableEq, Repr

/-- Python truthiness for the values a breakdown can take. -/
def BValue.truthy : BValue → Bool
  | .int n => n != 0
  | .str s => s != ""
  | .bool b => b

def BValue.isStr : BValue → Bool
  | .str _ => true
  | _ => false

def BValue.isBool : BValue → Bool
  | .bool _ => true
  | _ => false

/-- How the value prints inside an f-string (`str()` in Python). -/
def BValue.render : BValue → String
  | .int n => toString n
  | .str s => s
  | .bool b => if b then "True" else "False"

def listStartsWith : List Char → List Char → Bool
  | _, [] => true
  | [], _ :: _ => false
  | a :: as, b :: bs => a == b && listStartsWith as bs

def listContainsSub : List Char → List Char → Bool
  | [], need => listStartsWith [] need
  | h :: t, need => listStartsWith (h :: t) need || listContainsSub t need

/-- `needle in haystack` on Python strings. -/
def strContains (hay need : String) : Bool :=
  listContainsSub hay.toList need.toList

def listRemoveAux (need : List Char) : Nat → List Char → List Char
  | _, [] => []
  | 0, hay => hay
  | fuel + 1, h :: t =>
      if listStartsWith (h :: t) need && !need.isEmpty then
        listRemoveAux need fuel ((h :: t).drop need.length)
      else h :: listRemoveAux need fuel t

/-- `hay.replace(need, "")` on Python strings. -/
def strRemoveAll (hay need : String) : String :=
  String.mk (listRemoveAux need.toList hay.toList.length hay.toList)

structure BreakdownEntry where
  label : String
  breakdown_value : BValue
deriving DecidableEq, Repr

/-- Translated from `breakdown_label(entity, value)` in
`src/posthog/queries/test/test_trends.py` (lines 38-52).  The ambient
cohort table (`Cohort.objects.get`) is passed as an association list from
cohort primary-key string to cohort name; a missing cohort id yields
`none` where the Python raises (and the cohort primary key is echoed as
its string form). -/
def breakdown_label (entityName : String) (cohortNames : List (String × String))
    (value : BValue) : Option BreakdownEntry :=
  if !value.truthy || !value.isStr || !strContains value.render "cohort_" then
    let keep := (value.truthy || value.isBool)
      && value != BValue.str "None" && value != BValue.str "nan"
    if keep then some ⟨entityName ++ " - " ++ value.render, value⟩
    else some ⟨entityName ++ " - Other", BValue.str "Other"⟩
  else if value == BValue.str "cohort_all" then
    some ⟨entityName ++ " - all users", BValue.str "all"⟩
  else
    match cohortNames.lookup (strRemoveAll value.render "cohort_") with
    | some nm => some ⟨entityName ++ " - " ++ nm,
        BValue.str (strRemoveAll value.render "cohort_")⟩
    | none => none

/-! ## Numeric math: reductions, medians and percentiles -/

inductive MathOp
  | total
  | dau
  | weeklyActive
  | monthlyActive
  | uniqueSession
  | sum
  | avg
  | min
  | max
  | median
  | p90
  | p95
  | p99
  | avgCountPerActor
  | maxCountPerActor
deriving DecidableEq, Repr

/-- The math kinds that reduce a declared numeric `math_property`. -/
def MathOp.isNumeric : MathOp → Bool
  | .sum | .avg | .min | .max | .median | .p90 | .p95 | .p99 => true
  | _ => false

def insertSorted (x : ℚ) : List ℚ → List ℚ
  | [] => [x]
  | y :: ys => if x ≤ y then x :: y :: ys else y :: insertSorted x ys

def sortQ : List ℚ → List ℚ
  | [] => []
  | x :: xs => insertSorted x (sortQ xs)

/-! Rational arithmetic helpers.  The kernel cannot definitionally
evaluate the arithmetic instances of `ℚ`, so the aggregation functions
below compute through `mkRat`, which always yields the normalized
rational; the results are therefore the ordinary rational values. -/

def qAdd (a b : ℚ) : ℚ :=
  mkRat (a.num * b.den + b.num * a.den) (a.den * b.den)

def qSub (a b : ℚ) : ℚ :=
  mkRat (a.num * b.den - b.num * a.den) (a.den * b.den)

def qMul (a b : ℚ) : ℚ :=
  mkRat (a.num * b.num) (a.den * b.den)

def qDiv (a b : ℚ) : ℚ :=
  let n := a.num * (b.den : Int)
  let d := (a.den : Int) * b.num
  if d < 0 then mkRat (-n) (-d).toNat else mkRat n d.toNat

def qSum (l : List ℚ) : ℚ :=
  l.foldr qAdd 0

/-- The floor of a rational number (`q.num / q.den` under Euclidean
integer division, which rounds toward negative infinity for the positive
denominator). -/
def ratFloor (q : ℚ) : Int :=
  q.num / (q.den : Int)

/-- Modelled from the spec: the executor's percentile reduction
(ClickHouse `quantile(level)`, which linearly interpolates between the
two closest ranks of the sorted sample; the query layer is not under
src/).  `quantileValue (1/2)` is the median. -/
def quantileValue (level : ℚ) : List ℚ → ℚ
  | [] => 0
  | x :: xs =>
      let s := sortQ (x :: xs)
      let h := qMul level (mkRat ((s.length : Int) - 1) 1)
      let lo := ratFloor h
      let a := s.getD lo.toNat x
      let b := s.getD (lo.toNat + 1) a
      qAdd a (qMul (qSub h (mkRat lo 1)) (qSub b a))

/-- Modelled from the spec: single-aggregate (table/pie display) numeric
math over the `math_property` values of all qualifying events of the
range, producing the `aggregated_value` of the series. -/
def aggregatedValue (op : MathOp) (values : List ℚ) : ℚ :=
  match op with
  | .sum => qSum values
  | .avg => if values.length = 0 then 0 else qDiv (qSum values) (mkRat values.length 1)
  | .min => match values with
      | [] => 0
      | x :: xs => xs.foldl (fun a b => if a ≤ b then a else b) x
  | .max => match values with
      | [] => 0
      | x :: xs => xs.foldl (fun a b => if a ≤ b then b else a) x
  | .median => quantileValue (mkRat 1 2) values
  | .p90 => quantileValue (mkRat 9 10) values
  | .p95 => quantileValue (mkRat 19 20) values
  | .p99 => quantileValue (mkRat 99 100) values
  | _ => 0

/-! ## Filter validation and `Trends.run` -/

structure TEntity where
  id : String
  math : Option MathOp
  math_property : Option String
deriving DecidableEq, Repr

structure TrendsFilter where
  entities : List TEntity
  dateFrom : Ts
  dateTo : Ts
  interval : Interval
deriving DecidableEq, Repr

/-- Modelled from the spec: the fail-fast validation phase of
`Trends.run` (the implementation is not under src/): an entity whose math
is a numeric reduction but which declares no `math_property` is a
validation error. -/
def validateFilter (f : TrendsFilter) : Except String Unit :=
  if f.entities.any (fun e => (e.math.map MathOp.isNumeric).getD false && e.math_property.isNone)
  then Except.error "Math property is required for functions that aggregate properties"
  else Except.ok ()

/-- Modelled from the spec: `Trends.run(filter, team)` as far as
validation ordering is concerned: validation runs first and a validation
failure is returned before the external query executor is consulted for
any entity; on success each entity is executed in order. -/
def runTrends (executor : TEntity → List ℚ) (f : TrendsFilter) :
    Except String (List (List ℚ)) :=
  match validateFilter f with
  | .error e => .error e
  | .ok _ => .ok (f.entities.map executor)

/-! ## Per-actor aggregation (`avg_count_per_actor`) -/

def actorsInBucket (events : List SEvent) (name : String) (lo hi : Ts) : List Nat :=
  ((events.filter (fun e =>
    e.name == name && decide (lo ≤ e.ts) && decide (e.ts < hi))).map (·.actor)).dedup

def actorEventCount (events : List SEvent) (name : String) (lo hi : Ts) (a : Nat) : Nat :=
  (events.filter (fun e =>
    e.actor == a && e.name == name && decide (lo ≤ e.ts) && decide (e.ts < hi))).length

/-- Modelled from the spec: the `avg_count_per_actor` aggregation (the
implementation is not under src/): per bucket, count qualifying events
per actor and take the mean across exactly the actors with at least one
qualifying event in that bucket; a bucket with no qualifying events has
value 0. -/
def avgCountPerActorValue (events : List SEvent) (name : String) (i : Interval) (b : Ts) : ℚ :=
  let hi := addInterval b i
  let actors := actorsInBucket events name b hi
  if actors.length = 0 then 0
  else qDiv (qSum (actors.map (fun a => mkRat (actorEventCount events name b hi a) 1)))
    (mkRat actors.length 1)

def avgCountPerActorSeries (events : List SEvent) (name : String) (i : Interval)
    (axis : List Ts) : List ℚ :=
  axis.map (avgCountPerActorValue events name i)

/-- The alternative reading that the spec's open question rejects: every
actor of `allActors` participates in the bucket's average, idle actors
contributing a zero count. -/
def avgCountIncludingIdle (allActors : List Nat) (events : List SEvent) (name : String)
    (i : Interval) (b : Ts) : ℚ :=
  if allActors.length = 0 then 0
  else qDiv (qSum (allActors.map (fun a =>
    mkRat (actorEventCount events name b (addInterval b i) a) 1))) (mkRat allActors.length 1)

/-- The event fixture of `_create_event_count_per_user_events` in
`src/posthog/queries/test/test_trends.py` (actors: 0 = the person behind
`blabla`/`anonymous_id`, 1 = tintin, 2 = murmur, 3 = reeree). -/
def perUserFixture : List SEvent :=
  [ ⟨0, "viewed video", mkTs 2020 1 1 0 6⟩,
    ⟨0, "viewed video", mkTs 2020 1 1 0 6⟩,
    ⟨3, "viewed video", mkTs 2020 1 1 0 6⟩,
    ⟨1, "sign up", mkTs 2020 1 1 0 6⟩,
    ⟨2, "sign up", mkTs 2020 1 3 19 6⟩,
    ⟨1, "viewed video", mkTs 2020 1 4 23 17⟩,
    ⟨0, "viewed video", mkTs 2020 1 5 19 6⟩,
    ⟨1, "viewed video", mkTs 2020 1 5 19 6⟩,
    ⟨1, "viewed video", mkTs 2020 1 5 19 6⟩,
    ⟨1, "viewed video", mkTs 2020 1 5 19 6⟩ ]

/-! ## Compare mode -/

/-- The day-numbered bucket axis of a day-interval range. -/
def dayAxis (dFrom dTo : Int) : List Int :=
  (List.range (dTo + 1 - dFrom).toNat).map (fun k => dFrom + (k : Int))

def dayCount (events : List SEvent) (name : String) (d : Int) : Nat :=
  (events.filter (fun e => e.name == name && e.ts / minutesPerDay == d)).length

structure CompareSeries where
  label : String
  compare_label : String
  days : List Int
  labels : List String
  data : List Nat
deriving DecidableEq, Repr

/-- The ordinal "day N" label list that compare mode substitutes for
calendar-dated labels. -/
def ordinalLabels (n : Nat) : List String :=
  (List.range n).map (fun k => "day " ++ toString k)

def currentSeriesFor (events : List SEvent) (dFrom dTo : Int) (name : String) : CompareSeries :=
  let axis := dayAxis dFrom dTo
  ⟨name, "current", axis, ordinalLabels axis.length, axis.map (dayCount events name)⟩

def previousSeriesFor (events : List SEvent) (dFrom dTo : Int) (name : String) : CompareSeries :=
  let shift := dTo - dFrom
  let axis := dayAxis (dFrom - shift) (dTo - shift)
  ⟨name, "previous", axis, ordinalLabels axis.length, axis.map (dayCount events name)⟩

/-- Modelled from the spec: `Trends.run` with `compare` enabled at day
interval (the implementation is not under src/): for each entity in input
order, the current-period series followed by its previous-period
counterpart, whose axis is the current axis shifted back by one full
range length and whose labels are the ordinal "day N" forms. -/
def runCompare (events : List SEvent) (dFrom dTo : Int) : List String → List CompareSeries
  | [] => []
  | nm :: rest =>
      currentSeriesFor events dFrom dTo nm :: previousSeriesFor events dFrom dTo nm
        :: runCompare events dFrom dTo rest

/-- The event fixture of `_create_events` in
`src/posthog/queries/test/test_trends.py` (without-time variant: one
"sign up" on 2019-12-24, three on 2020-01-01, one "sign up" and one
"no events" on 2020-01-02; the second team's event is out of scope). -/
def createEventsFixture : List SEvent :=
  [ ⟨0, "sign up", mkDay 2019 12 24⟩,
    ⟨0, "sign up", mkDay 2020 1 1⟩,
    ⟨1, "sign up", mkDay 2020 1 1⟩,
    ⟨0, "sign up", mkDay 2020 1 1⟩,
    ⟨0, "sign up", mkDay 2020 1 2⟩,
    ⟨0, "no events", mkDay 2020 1 2⟩ ]

/-! ## Relative date expressions -/

inductive RelExpr
  | monthsAgo (n : Nat)
  | monthsAgoStart (n : Nat)
  | monthsAgoEnd (n : Nat)
deriving DecidableEq, Repr

/-- Modelled from the spec: the month-valued relative date expressions
"-Nm", "-NmStart", "-NmEnd" of `relative_date_parse` (posthog/utils.py is
not under src/), resolved against a reference "now": subtract N calendar
months with day-of-month clamping (`dateutil.relativedelta` semantics),
then for the Start/End forms snap to the first or last day of the
resulting month. -/
def relative_date_parse (today : CivilDate) : RelExpr → CivilDate
  | .monthsAgo n => addMonthsClamp today.year today.month today.day (-(n : Int))
  | .monthsAgoStart n =>
      let c := addMonthsClamp today.year today.month today.day (-(n : Int))
      ⟨c.year, c.month, 1⟩
  | .monthsAgoEnd n =>
      let c := addMonthsClamp today.year today.month today.day (-(n : Int))
      ⟨c.year, c.month, daysInMonth c.year c.month⟩

/-! ## Test fixtures for the cache claims -/

/-- The cached payload of `test_get_cached_result_hour`: three bucket
labels that are neither hour-aligned nor contiguous. -/
def cachedHourPayload : SeriesPayload :=
  ⟨[mkTs 2020 11 1 5 20, mkTs 2020 11 1 10 22, mkTs 2020 11 1 10 25], [0, 0, 0]⟩

/-- The cached payload of `test_get_cached_result_bad_cache`: bucket
labels but an empty data array. -/
def cachedBadPayload : SeriesPayload :=
  ⟨[mkTs 2020 11 1 5 20, mkTs 2020 11 1 10 22, mkTs 2020 11 1 10 25], []⟩

def cachedDayPayload : SeriesPayload :=
  ⟨[mkDay 2020 1 2, mkDay 2020 1 3, mkDay 2020 1 4], [0, 0, 0]⟩

def cachedDayShiftedPayload : SeriesPayload :=
  ⟨[mkDay 2020 1 1, mkDay 2020 1 2, mkDay 2020 1 3], [0, 0, 0]⟩

def cachedWeekPayload : SeriesPayload :=
  ⟨[mkDay 2020 11 1, mkDay 2020 11 8, mkDay 2020 11 15], [0, 0, 0]⟩

def cachedMonthPayload : SeriesPayload :=
  ⟨[mkDay 2020 9 1, mkDay 2020 10 1, mkDay 2020 11 1], [0, 0, 0]⟩

/-- The cached map of `test_merge_result_multiple`. -/
def mergeCachedMultiple : List (String × SeriesPayload) :=
  [ ("sign up - Chrome_0", ⟨[mkDay 2020 1 2, mkDay 2020 1 3, mkDay 2020 1 4], [23, 15, 1]⟩),
    ("sign up - Safari_0", ⟨[mkDay 2020 1 2, mkDay 2020 1 3, mkDay 2020 1 4], [12, 11, 8]⟩) ]

/-- The fresh partial computation of `test_merge_result_multiple`. -/
def mergeFreshMultiple : List FreshSeries :=
  [⟨"sign up - Chrome", [15, 12]⟩, ⟨"sign up - Safari", [15, 9]⟩]

/-- The numeric `math_property` values of the percentile tests
(`range(101, 201)` in `_test_math_property_aggregation`). -/
def c7Values : List ℚ :=
  (List.range 100).map (fun k => ((101 + k : Nat) : ℚ))

/-- The filter of `test_trends_math_without_math_property`: a single
entity with `math = sum` and no `math_property`. -/
def c4Filter : TrendsFilter :=
  ⟨[⟨"sign up", some MathOp.sum, none⟩], 0, 0, Interval.day⟩

/-- The current-period series pinned by `test_trends_compare` (three
"sign up" events on 2020-01-01, one on 2020-01-02). -/
def compareCurrentExpected : CompareSeries :=
  ⟨"sign up", "current",
    [toDayNumber 2019 12 28, toDayNumber 2019 12 29, toDayNumber 2019 12 30,
     toDayNumber 2019 12 31, toDayNumber 2020 1 1, toDayNumber 2020 1 2,
     toDayNumber 2020 1 3, toDayNumber 2020 1 4],
    ["day 0", "day 1", "day 2", "day 3", "day 4", "day 5", "day 6", "day 7"],
    [0, 0, 0, 0, 3, 1, 0, 0]⟩

/-- The previous-period series pinned by `test_trends_compare` (one
"sign up" event on 2019-12-24; the axis is the current axis shifted back
by the seven-day range length). -/
def comparePreviousExpected : CompareSeries :=
  ⟨"sign up", "previous",
    [toDayNumber 2019 12 21, toDayNumber 2019 12 22, toDayNumber 2019 12 23,
     toDayNumber 2019 12 24, toDayNumber 2019 12 25, toDayNumber 2019 12 26,
     toDayNumber 2019 12 27, toDayNumber 2019 12 28],
    ["day 0", "day 1", "day 2", "day 3", "day 4", "day 5", "day 6", "day 7"],
    [0, 0, 0, 1, 0, 0, 0, 0]⟩

/-! ## Supporting lemmas -/

theorem daysInMonth_ge_28 (y m : Int) : 28 ≤ daysInMonth y m := by
  unfold daysInMonth
  split_ifs <;> norm_num

theorem merge_one_label (cached : List (String × SeriesPayload)) (order : Nat)
    (p : FreshSeries) : (mergeOne cached order p).label = p.label := by
  unfold mergeOne
  split <;> rfl

theorem merge_results_labels (cached : List (String × SeriesPayload)) (order : Nat)
    (result : List FreshSeries) :
    (merge_results result cached order).map (fun s => s.label)
      = result.map (fun s => s.label) := by
  unfold merge_results
  rw [List.map_map]
  exact List.map_congr_left (fun p _ => merge_one_label cached order p)

theorem merge_results_empty_cache (order : Nat) :
    ∀ result : List FreshSeries, merge_results result [] order = result
  | [] => rfl
  | p :: rest => by
      have ih := merge_results_empty_cache order rest
      simp only [merge_results, List.map_cons] at ih ⊢
      rw [ih]
      cases h : p.data.getLast? <;> simp [mergeOne, List.lookup, h]

theorem sunday_anchor (z : Int) :
    weekday (sundayOnOrBefore z) = 0 ∧ sundayOnOrBefore z ≤ z
      ∧ z - 6 ≤ sundayOnOrBefore z := by
  simp only [sundayOnOrBefore, weekday]
  omega

theorem buckets_head_eq (df dt : Ts) (i : Interval) (h : floorInterval df i ≤ dt) :
    (buckets df dt i).head? = some (floorInterval df i) := by
  unfold buckets bucketsFrom
  rw [if_pos h]
  rfl

theorem dayAxis_shift (a b s : Int) :
    dayAxis (a - s) (b - s) = (dayAxis a b).map (fun d => d - s) := by
  unfold dayAxis
  rw [List.map_map]
  have harg : b - s + 1 - (a - s) = b + 1 - a := by ring
  rw [harg]
  refine List.map_congr_left (fun k _ => ?_)
  simp only [Function.comp_apply]
  ring

theorem runCompare_getElem_even (events : List SEvent) (df dt : Int) :
    ∀ (names : List String) (k : Nat),
      (runCompare events df dt names)[2 * k]?
        = names[k]?.map (currentSeriesFor events df dt)
  | [], k => by simp [runCompare]
  | nm :: rest, 0 => by simp [runCompare]
  | nm :: rest, k + 1 => by
      have ih := runCompare_getElem_even events df dt rest k
      have h2 : 2 * (k + 1) = 2 * k + 1 + 1 := by ring
      simp only [runCompare, h2, List.getElem?_cons_succ]
      exact ih

theorem runCompare_getElem_odd (events : List SEvent) (df dt : Int) :
    ∀ (names : List String) (k : Nat),
      (runCompare events df dt names)[2 * k + 1]?
        = names[k]?.map (previousSeriesFor events df dt)
  | [], k => by simp [runCompare]
  | nm :: rest, 0 => by simp [runCompare]
  | nm :: rest, k + 1 => by
      have ih := runCompare_getElem_odd events df dt rest k
      have h2 : 2 * (k + 1) + 1 = 2 * k + 1 + 1 + 1 := by ring
      simp only [runCompare, h2, List.getElem?_cons_succ]
      exact ih

theorem previous_days_shift (events : List SEvent) (df dt : Int) (nm : String) :
    (previousSeriesFor events df dt nm).days
      = (currentSeriesFor events df dt nm).days.map (fun d => d - (dt - df)) := by
  simp only [previousSeriesFor, currentSeriesFor]
  exact dayAxis_shift df dt (dt - df)

/-! ## Claim theorems -/

/-- Claim C1, amended: the rolling active-actor window is a fixed span of
`window` whole days (7 for weekly_active) in real time, positioned as
`(b - 6 days, b + 1 day]` around the bucket start `b` — not a window of 7
interval units — for every interval; in particular the pinned fixture
queried hourly over 2020-01-09 06:00..17:00 yields
[3,3,3,3,3,3,2,2,2,2,2,2], and the daily, weekly and monthly runs of the
same fixture yield their pinned series as well. -/
theorem rolling_active_day_window_c1 :
    rollingActiveSeries 7 activeUsersFixture "$pageview"
        (buckets (mkTs 2020 1 9 6 0) (mkTs 2020 1 9 17 0) Interval.hour)
      = [3, 3, 3, 3, 3, 3, 2, 2, 2, 2, 2, 2]
    ∧ rollingActiveSeries 7 activeUsersFixture "$pageview"
        (buckets (mkDay 2020 1 8) (mkDay 2020 1 19) Interval.day)
      = [1, 3, 2, 2, 3, 3, 3, 3, 3, 3, 1, 0]
    ∧ buckets (mkDay 2019 12 29) (mkDay 2020 1 18) Interval.week
      = [mkDay 2019 12 29, mkDay 2020 1 5, mkDay 2020 1 12]
    ∧ rollingActiveSeries 7 activeUsersFixture "$pageview"
        (buckets (mkDay 2019 12 29) (mkDay 2020 1 18) Interval.week)
      = [0, 1, 3]
    ∧ buckets (mkDay 2019 12 1) (mkDay 2020 2 29) Interval.month
      = [mkDay 2019 12 1, mkDay 2020 1 1, mkDay 2020 2 1]
    ∧ rollingActiveSeries 7 activeUsersFixture "$pageview"
        (buckets (mkDay 2019 12 1) (mkDay 2020 2 29) Interval.month)
      = [0, 0, 0] :=
  ⟨by decide, by decide, by decide, by decide, by decide, by decide⟩

/-- Claim C1, counterexample: on the pinned hourly fixture, a trailing
window of 7 interval units at the chosen (hour) granularity produces the
series [0,0,0,0,0,0,2,2,2,2,2,2], which differs from the series
[3,3,3,3,3,3,2,2,2,2,2,2] that the same claim (and the repository test)
pins; the claim's window formula and its pinned series are incompatible. -/
theorem rolling_active_not_interval_units_c1 :
    intervalUnitActiveSeries 60 activeUsersFixture "$pageview"
        (buckets (mkTs 2020 1 9 6 0) (mkTs 2020 1 9 17 0) Interval.hour)
      = [0, 0, 0, 0, 0, 0, 2, 2, 2, 2, 2, 2]
    ∧ ([0, 0, 0, 0, 0, 0, 2, 2, 2, 2, 2, 2] : List Nat)
      ≠ [3, 3, 3, 3, 3, 3, 2, 2, 2, 2, 2, 2] :=
  ⟨by decide, by decide⟩

/-- Claim C2, amended: `get_cached_result` returns the cached series iff
the cached package exists, its first series has nonempty days and data,
and the last cached bucket timestamp plus one unit of the requested
interval lies strictly after the requested date_to; neither contiguity
nor interval alignment nor the axis start are checked.  This reproduces
every scenario pinned by the `TestTrendUtils.test_get_cached_result_*`
tests. -/
theorem get_cached_result_reaches_date_to_c2 :
    get_cached_result none Interval.hour (mkTs 2020 11 1 10 26) = none
    ∧ get_cached_result (some [cachedBadPayload]) Interval.hour (mkTs 2020 11 1 10 26) = none
    ∧ get_cached_result (some [cachedHourPayload]) Interval.hour (mkTs 2020 11 1 10 26)
      = some [cachedHourPayload]
    ∧ get_cached_result (some [cachedHourPayload]) Interval.hour (mkTs 2020 11 2 5 26) = none
    ∧ get_cached_result (some [cachedDayPayload]) Interval.day (mkDay 2020 1 4)
      = some [cachedDayPayload]
    ∧ get_cached_result (some [cachedDayShiftedPayload]) Interval.day (mkDay 2020 1 4) = none
    ∧ get_cached_result (some [cachedWeekPayload]) Interval.week (mkDay 2020 11 16)
      = some [cachedWeekPayload]
    ∧ get_cached_result (some [cachedWeekPayload]) Interval.week (mkDay 2020 11 23) = none
    ∧ get_cached_result (some [cachedMonthPayload]) Interval.month (mkDay 2020 11 16)
      = some [cachedMonthPayload]
    ∧ get_cached_result (some [cachedMonthPayload]) Interval.week (mkDay 2020 12 1) = none :=
  ⟨rfl, by decide, by decide, by decide, by decide, by decide, by decide, by decide,
    by decide, by decide⟩

/-- Claim C2, counterexample: in the scenario of
`test_get_cached_result_hour` the cached bucket axis
(05:20, 10:22, 10:25) is not an hour-aligned contiguous prefix of any
hourly axis, yet `get_cached_result` still returns the cached series —
refuting "returns the cached series only if the cached axis is a
contiguous prefix of the implied axis at the requested interval". -/
theorem get_cached_result_noncontiguous_hit_c2 :
    get_cached_result (some [cachedHourPayload]) Interval.hour (mkTs 2020 11 1 10 26)
      = some [cachedHourPayload]
    ∧ cachedAxisContiguous cachedHourPayload.days Interval.hour (mkTs 2020 11 1 10 26)
      = false :=
  ⟨by decide, by decide⟩

/-- Claim C3, amended: `merge_results` keeps every cached bucket value
except the final one; only the final cached bucket is overwritten, with
the fresh series' final value; a series whose label has no cached
counterpart (in particular when the cache is empty) is kept as-is, and
merging never changes series labels. -/
theorem merge_results_last_bucket_c3 :
    (merge_results [⟨"sign up - Chrome", [15, 12]⟩]
        [("sign up - Chrome_0",
          ⟨[mkDay 2020 1 2, mkDay 2020 1 3, mkDay 2020 1 4], [23, 15, 1]⟩)]
        0).map (fun s => s.data) = [[23, 15, 12]]
    ∧ (merge_results mergeFreshMultiple mergeCachedMultiple 0).map (fun s => s.data)
      = [[23, 15, 12], [12, 11, 9]]
    ∧ (∀ (result : List FreshSeries) (order : Nat), merge_results result [] order = result)
    ∧ (∀ (cached : List (String × SeriesPayload)) (order : Nat) (result : List FreshSeries),
        (merge_results result cached order).map (fun s => s.label)
          = result.map (fun s => s.label)) :=
  ⟨by decide, by decide, fun r o => merge_results_empty_cache o r,
    fun c o r => merge_results_labels c o r⟩

/-- Claim C3, counterexample: in the pinned `test_merge_result_multiple`
scenario the Safari series has cached data [12,11,8] and fresh data
[15,9] covering the final two buckets; the code merges to [12,11,9] — the
overlapping middle bucket keeps the cached 11 — whereas fresh-overwrites-
every-overlapping-bucket merging would give [12,15,9]. -/
theorem merge_overlap_keeps_cached_c3 :
    (merge_results mergeFreshMultiple mergeCachedMultiple 0).map (fun s => s.data)
      = [[23, 15, 12], [12, 11, 9]]
    ∧ overwriteMerge [12, 11, 8] [15, 9] = [12, 15, 9]
    ∧ ([12, 11, 9] : List ℚ) ≠ [12, 15, 9] :=
  ⟨by decide, by decide, by decide⟩

/-- Claim C4: a filter containing an entity whose math is a numeric
reduction but which has no math_property makes `Trends.run` fail with the
ValidationError before any query executes: the error is returned for
every executor, and the outcome is independent of the executor (so no
query result can influence or retry it). -/
theorem numeric_math_requires_property_c4 (f : TrendsFilter) (e : TEntity)
    (he : e ∈ f.entities)
    (hm : (e.math.map MathOp.isNumeric).getD false = true)
    (hp : e.math_property = none)
    (ex1 ex2 : TEntity → List ℚ) :
    runTrends ex1 f
      = Except.error "Math property is required for functions that aggregate properties"
    ∧ runTrends ex1 f = runTrends ex2 f := by
  have hval : validateFilter f
      = Except.error "Math property is required for functions that aggregate properties" := by
    unfold validateFilter
    rw [if_pos]
    rw [List.any_eq_true]
    exact ⟨e, he, by simp [hm, hp]⟩
  unfold runTrends
  rw [hval]
  exact ⟨rfl, rfl⟩

/-- Witness for C4 at the filter of
`test_trends_math_without_math_property` (`math = "sum"`, no
math_property). -/
theorem numeric_math_requires_property_c4_witness :
    (⟨"sign up", some MathOp.sum, none⟩ : TEntity) ∈ c4Filter.entities
    ∧ runTrends (fun _ => []) c4Filter
      = Except.error "Math property is required for functions that aggregate properties" :=
  ⟨by simp [c4Filter], (numeric_math_requires_property_c4 c4Filter
      ⟨"sign up", some MathOp.sum, none⟩ (by simp [c4Filter]) rfl rfl
      (fun _ => []) (fun _ => [])).1⟩

/-- Claim C5: week-interval axes are anchored to Sunday independent of
the weekday of date_from: for every day number the week anchor is the
Sunday on or before it (at most 6 days back), every axis starts at the
floored date_from, and concretely date_from 2020-11-04 yields first
bucket 2020-11-01 labeled "1-Nov-2020" (with the full pinned axes of
`test_interval_rounding` and `test_week_interval`). -/
theorem week_axis_sunday_anchored_c5 :
    (∀ z : Int, weekday (sundayOnOrBefore z) = 0 ∧ sundayOnOrBefore z ≤ z
      ∧ z - 6 ≤ sundayOnOrBefore z)
    ∧ (∀ (dateFrom dateTo : Ts) (i : Interval), floorInterval dateFrom i ≤ dateTo →
        (buckets dateFrom dateTo i).head? = some (floorInterval dateFrom i))
    ∧ buckets (mkDay 2020 11 4) (mkDay 2020 11 24) Interval.week
      = [mkDay 2020 11 1, mkDay 2020 11 8, mkDay 2020 11 15, mkDay 2020 11 22]
    ∧ bucketLabels (buckets (mkDay 2020 11 4) (mkDay 2020 11 24) Interval.week)
      = ["1-Nov-2020", "8-Nov-2020", "15-Nov-2020", "22-Nov-2020"]
    ∧ bucketLabels (buckets (mkDay 2020 10 29) (mkDay 2020 11 24) Interval.week)
      = ["25-Oct-2020", "1-Nov-2020", "8-Nov-2020", "15-Nov-2020", "22-Nov-2020"]
    ∧ floorInterval (mkDay 2020 11 4) Interval.week = mkDay 2020 11 1 :=
  ⟨sunday_anchor, buckets_head_eq, by decide, by decide, by decide, by decide⟩

/-- Witness for C5 at the concrete range of `test_interval_rounding`. -/
theorem week_axis_sunday_anchored_c5_witness :
    floorInterval (mkDay 2020 11 4) Interval.week ≤ mkDay 2020 11 24
    ∧ (buckets (mkDay 2020 11 4) (mkDay 2020 11 24) Interval.week).head?
      = some (floorInterval (mkDay 2020 11 4) Interval.week) :=
  ⟨by decide, week_axis_sunday_anchored_c5.2.1 (mkDay 2020 11 4) (mkDay 2020 11 24)
    Interval.week (by decide)⟩

/-- Claim C6, amended: `breakdown_label` maps value 1 to
"entity - 1", "nan"/"None" to "entity - Other", "cohort_all" to
"entity - all users", and preserves booleans (False keeps its own label);
but the falsy-yet-defined values 0 and "" are folded into the "Other"
sentinel, not preserved. -/
theorem breakdown_label_cases_c6 :
    breakdown_label "$pageview" [] (BValue.int 1) = some ⟨"$pageview - 1", BValue.int 1⟩
    ∧ breakdown_label "$pageview" [] (BValue.str "Chrome")
      = some ⟨"$pageview - Chrome", BValue.str "Chrome"⟩
    ∧ breakdown_label "$pageview" [] (BValue.str "nan")
      = some ⟨"$pageview - Other", BValue.str "Other"⟩
    ∧ breakdown_label "$pageview" [] (BValue.str "None")
      = some ⟨"$pageview - Other", BValue.str "Other"⟩
    ∧ breakdown_label "$pageview" [] (BValue.str "cohort_all")
      = some ⟨"$pageview - all users", BValue.str "all"⟩
    ∧ breakdown_label "$pageview" [("7", "cohort1")] (BValue.str "cohort_7")
      = some ⟨"$pageview - cohort1", BValue.str "7"⟩
    ∧ breakdown_label "$pageview" [] (BValue.bool false)
      = some ⟨"$pageview - False", BValue.bool false⟩
    ∧ breakdown_label "$pageview" [] (BValue.bool true)
      = some ⟨"$pageview - True", BValue.bool true⟩
    ∧ breakdown_label "$pageview" [] (BValue.int 0)
      = some ⟨"$pageview - Other", BValue.str "Other"⟩
    ∧ breakdown_label "$pageview" [] (BValue.str "")
      = some ⟨"$pageview - Other", BValue.str "Other"⟩ :=
  ⟨rfl, rfl, rfl, rfl, rfl, rfl, rfl, rfl, rfl, rfl⟩

/-- Claim C6, counterexample: the falsy-but-defined numeric value 0 is
folded into the "Other" sentinel by `breakdown_label` (because
`value or type(value) == bool` is false for 0), refuting "falsy-but-
defined values such as 0 ... are never folded into the Other sentinel". -/
theorem breakdown_label_zero_not_preserved_c6 :
    breakdown_label "$pageview" [] (BValue.int 0)
      = some ⟨"$pageview - Other", BValue.str "Other"⟩
    ∧ some (⟨"$pageview - Other", BValue.str "Other"⟩ : BreakdownEntry)
      ≠ some ⟨"$pageview - 0", BValue.int 0⟩ :=
  ⟨rfl, by decide⟩

/-- Claim C7: for the single-aggregate run whose math_property values are
exactly the integers 101..200, the aggregated_value is 150.5 for median,
190.1 for p90, 195.05 for p95 and 199.01 for p99 — each within the 0.5
tolerance of 150, 190, 195 and 199 that the tests accept. -/
theorem percentile_aggregation_c7 :
    aggregatedValue MathOp.median c7Values = mkRat 301 2
    ∧ |aggregatedValue MathOp.median c7Values - 150| ≤ 1 / 2
    ∧ aggregatedValue MathOp.p90 c7Values = mkRat 1901 10
    ∧ |aggregatedValue MathOp.p90 c7Values - 190| ≤ 1 / 2
    ∧ aggregatedValue MathOp.p95 c7Values = mkRat 3901 20
    ∧ |aggregatedValue MathOp.p95 c7Values - 195| ≤ 1 / 2
    ∧ aggregatedValue MathOp.p99 c7Values = mkRat 19901 100
    ∧ |aggregatedValue MathOp.p99 c7Values - 199| ≤ 1 / 2 := by
  have hmed : aggregatedValue MathOp.median c7Values = mkRat 301 2 := by decide
  have h90 : aggregatedValue MathOp.p90 c7Values = mkRat 1901 10 := by decide
  have h95 : aggregatedValue MathOp.p95 c7Values = mkRat 3901 20 := by decide
  have h99 : aggregatedValue MathOp.p99 c7Values = mkRat 19901 100 := by decide
  refine ⟨hmed, ?_, h90, ?_, h95, ?_, h99, ?_⟩
  · rw [hmed, Rat.mkRat_eq_div, abs_le]
    norm_num
  · rw [h90, Rat.mkRat_eq_div, abs_le]
    norm_num
  · rw [h95, Rat.mkRat_eq_div, abs_le]
    norm_num
  · rw [h99, Rat.mkRat_eq_div, abs_le]
    norm_num

/-- Claim C8: avg_count_per_actor averages per-actor event counts over
only the actors active in the bucket; on the pinned fixture the daily
series is [1.5, 0, 0, 1, 2, 0, 0], and on the 2020-01-05 bucket the
value 2 differs from the 1 that averaging over all four known actors
(idle actors contributing zeros) would produce. -/
theorem avg_count_per_actor_excludes_idle_c8 :
    avgCountPerActorSeries perUserFixture "viewed video" Interval.day
        (buckets (mkDay 2020 1 1) (mkDay 2020 1 7) Interval.day)
      = [mkRat 3 2, 0, 0, 1, 2, 0, 0]
    ∧ avgCountPerActorValue perUserFixture "viewed video" Interval.day (mkDay 2020 1 5) = 2
    ∧ avgCountIncludingIdle [0, 1, 2, 3] perUserFixture "viewed video" Interval.day
        (mkDay 2020 1 5) = 1
    ∧ (2 : ℚ) ≠ 1 :=
  ⟨by decide, by decide, by decide, by decide⟩

/-- Claim C9: with compare enabled, each entity's current-period series
sits at even positions directly before its previous-period counterpart
at the following odd position; the previous axis is the current axis
shifted back by exactly one full range length; labels are the ordinal
"day N" forms; and the pinned `test_trends_compare` fixture reproduces
exactly the two pinned series. -/
theorem compare_order_shift_labels_c9 :
    (∀ (events : List SEvent) (df dt : Int) (names : List String) (k : Nat),
      (runCompare events df dt names)[2 * k]?
        = names[k]?.map (currentSeriesFor events df dt))
    ∧ (∀ (events : List SEvent) (df dt : Int) (names : List String) (k : Nat),
      (runCompare events df dt names)[2 * k + 1]?
        = names[k]?.map (previousSeriesFor events df dt))
    ∧ (∀ (events : List SEvent) (df dt : Int) (nm : String),
      (previousSeriesFor events df dt nm).days
        = (currentSeriesFor events df dt nm).days.map (fun d => d - (dt - df)))
    ∧ (∀ (events : List SEvent) (df dt : Int) (nm : String),
      (currentSeriesFor events df dt nm).labels
          = ordinalLabels (dayAxis df dt).length
        ∧ (previousSeriesFor events df dt nm).labels
          = ordinalLabels (dayAxis (df - (dt - df)) (dt - (dt - df))).length)
    ∧ runCompare createEventsFixture (toDayNumber 2019 12 28) (toDayNumber 2020 1 4)
        ["sign up"]
      = [compareCurrentExpected, comparePreviousExpected] :=
  ⟨runCompare_getElem_even, runCompare_getElem_odd, previous_days_shift,
    fun _ _ _ _ => ⟨rfl, rfl⟩, by decide⟩

/-- Claim C10: subtracting N months from a date clamps the day-of-month
to the last day of the target month instead of overflowing or failing:
the resulting month position is exactly N months back, the resulting day
is `min d (daysInMonth target)` and always valid; concretely, from
2020-01-31, "-1m" gives 2019-12-31, "-2m" gives 2019-11-30, "-1mEnd"
gives 2019-12-31 and "-2mEnd" gives 2019-11-30. -/
theorem relative_month_subtraction_clamps_c10 (y m d : Int) (n : Nat) (h : 1 ≤ d) :
    ((relative_date_parse ⟨y, m, d⟩ (RelExpr.monthsAgo n)).year * 12
        + ((relative_date_parse ⟨y, m, d⟩ (RelExpr.monthsAgo n)).month - 1)
        = y * 12 + (m - 1) - n
      ∧ 1 ≤ (relative_date_parse ⟨y, m, d⟩ (RelExpr.monthsAgo n)).month
      ∧ (relative_date_parse ⟨y, m, d⟩ (RelExpr.monthsAgo n)).month ≤ 12
      ∧ 1 ≤ (relative_date_parse ⟨y, m, d⟩ (RelExpr.monthsAgo n)).day
      ∧ (relative_date_parse ⟨y, m, d⟩ (RelExpr.monthsAgo n)).day
        ≤ daysInMonth (relative_date_parse ⟨y, m, d⟩ (RelExpr.monthsAgo n)).year
            (relative_date_parse ⟨y, m, d⟩ (RelExpr.monthsAgo n)).month
      ∧ (relative_date_parse ⟨y, m, d⟩ (RelExpr.monthsAgo n)).day
        = min d (daysInMonth (relative_date_parse ⟨y, m, d⟩ (RelExpr.monthsAgo n)).year
            (relative_date_parse ⟨y, m, d⟩ (RelExpr.monthsAgo n)).month))
    ∧ relative_date_parse ⟨2020, 1, 31⟩ (RelExpr.monthsAgo 1) = ⟨2019, 12, 31⟩
    ∧ relative_date_parse ⟨2020, 1, 31⟩ (RelExpr.monthsAgo 2) = ⟨2019, 11, 30⟩
    ∧ relative_date_parse ⟨2020, 1, 31⟩ (RelExpr.monthsAgoEnd 1) = ⟨2019, 12, 31⟩
    ∧ relative_date_parse ⟨2020, 1, 31⟩ (RelExpr.monthsAgoEnd 2) = ⟨2019, 11, 30⟩ := by
  refine ⟨?_, by decide, by decide, by decide, by decide⟩
  refine ⟨?_, ?_, ?_, ?_, ?_, rfl⟩ <;> simp only [relative_date_parse, addMonthsClamp]
  · omega
  · omega
  · omega
  · exact le_min h (le_trans (by norm_num) (daysInMonth_ge_28 _ _))
  · exact min_le_right _ _

/-- Witness for C10 at the reference date 2020-01-31 of
`TestRelativeDateParse.test_month`, whose day 31 does not exist two
months back. -/
theorem relative_month_subtraction_clamps_c10_witness :
    (1 : Int) ≤ 31
    ∧ (relative_date_parse ⟨2020, 1, 31⟩ (RelExpr.monthsAgo 2)).day
      = min 31 (daysInMonth (relative_date_parse ⟨2020, 1, 31⟩ (RelExpr.monthsAgo 2)).year
          (relative_date_parse ⟨2020, 1, 31⟩ (RelExpr.monthsAgo 2)).month) :=
  ⟨by norm_num,
    (relative_month_subtraction_clamps_c10 2020 1 31 2 (by norm_num)).1.2.2.2.2.2⟩

end PostHogTrends






